import Mathlib

/-!
Shallow embedding of the BoaviztAPI hexagonal-core impact engine
(`boaviztapi/core`), covering:

* the domain models `ImpactValue`, `PhaseImpact`, `ImpactResult`
  (`core/domain/model/impact.py`), `DeviceConfiguration` and friends
  (`core/domain/model/device.py`), `UsageConfiguration`
  (`core/domain/model/usage.py`);
* the domain service `ImpactCalculator`
  (`core/domain/services/impact_calculator.py`);
* the use case `ComputeServerImpactUseCase`
  (`core/use_cases/compute_server_impact.py`);
* the driven adapters `FactorProvider.get_electrical_mix`
  (`adapters/driven/persistence/factor_provider.py`) and
  `ArchetypeRepository` (`adapters/driven/persistence/archetype_repository.py`).

Numeric values (`Decimal` / `float` in the source) are embedded as `Rat`
with exact arithmetic.  Python dictionaries keyed by criterion strings are
embedded extensionally as functions `String → Option ImpactValue`;
dictionaries used only through `.get` are embedded the same way.
-/

namespace Boavizta

/-- `ImpactValue` dataclass from `core/domain/model/impact.py`:
value with optional uncertainty bounds, a unit and a source tag.
Field defaults mirror the dataclass defaults. -/
structure ImpactValue where
  value : Rat
  min_value : Option Rat := none
  max_value : Option Rat := none
  unit : String := ""
  source : String := "CALCULATED"
  description : Option String := none
deriving Repr, DecidableEq

/-- A criterion-keyed impact dictionary (`Dict[str, ImpactValue]`),
embedded extensionally: `m c = some iv` iff criterion `c` is a key. -/
def ImpactMap : Type := String → Option ImpactValue

/-- `CPUConfiguration` dataclass (`core/domain/model/device.py`).
The dataclass has no `units` field, so `getattr(cpu_config, 'units', 1)`
in the calculator always yields the default `1`. -/
structure CPUConfiguration where
  name : Option String := none
  core_units : Option Int := none
  die_size_per_core : Option Rat := none
  tdp : Option Rat := none
  family : Option String := none
deriving Repr, DecidableEq

/-- `RAMConfiguration` dataclass (`core/domain/model/device.py`);
no `units` field, so the calculator's `getattr` default `1` applies. -/
structure RAMConfiguration where
  capacity_gb : Option Rat := none
  density : Option Rat := none
deriving Repr, DecidableEq

/-- `DiskConfiguration` dataclass (`core/domain/model/device.py`);
no `units` field, so the calculator's `getattr` default `1` applies. -/
structure DiskConfiguration where
  capacity_gb : Option Rat := none
  type : Option String := none
deriving Repr, DecidableEq

/-- `DeviceConfiguration` dataclass (`core/domain/model/device.py`),
restricted to the components the impact calculator reads. -/
structure DeviceConfiguration where
  cpu : Option CPUConfiguration := none
  ram : List RAMConfiguration := []
  disk : List DiskConfiguration := []
  archetype : Option String := none
deriving Repr, DecidableEq

/-- `UsageConfiguration` dataclass (`core/domain/model/usage.py`),
restricted to the fields the calculator and use case read.  The Python
`workload` is `Optional[Dict[str, Decimal]]`; it is embedded as an
optional association list so that Python truthiness (`None` and the
empty dict are falsy) is representable. -/
structure UsageConfiguration where
  location : Option String := none
  hours_life_time : Option Rat := none
  usage_time_ratio : Option Rat := none
  workload : Option (List (String × Rat)) := none
deriving Repr, DecidableEq

/-- `dict.get(key, default)` on an association list (first match wins;
Python dict keys are unique, so first match is the only match). -/
def dictGet (l : List (String × Rat)) (key : String) (dflt : Rat) : Rat :=
  match l.find? (fun p => p.1 = key) with
  | some p => p.2
  | none => dflt

/-- Per-category factor dictionary (`Dict[str, float]`), embedded
extensionally. -/
def Factors : Type := String → Option Rat

/-- `factors.get(key, default)` on a factor dictionary. -/
def factorsGet (f : Factors) (key : String) (dflt : Rat) : Rat :=
  (f key).getD dflt

/-- The empty factor dictionary (`{}`). -/
def emptyFactors : Factors := fun _ => none

/-- `Dict[str, Dict[str, float]]` of impact factors by category. -/
def ImpactFactors : Type := String → Option Factors

/-- `unit_map.get(criterion, 'unknown')` used by every phase function of
`ImpactCalculator` (`impact_calculator.py`, the literal
`{'gwp': 'kgCO2eq', 'pe': 'MJ', 'adp': 'kgSbeq'}`). -/
def unitMap (criterion : String) : String :=
  if criterion = "gwp" then "kgCO2eq"
  else if criterion = "pe" then "MJ"
  else if criterion = "adp" then "kgSbeq"
  else "unknown"

/-- `ImpactCalculator._calculate_cpu_manufacturing`:
`cpu_factors.get('impact', 20.0) * getattr(cpu_config, 'units', 1)`,
where the `getattr` default is always taken (no `units` field). -/
def calculate_cpu_manufacturing (_cpu : CPUConfiguration) (cpu_factors : Factors) : Rat :=
  factorsGet cpu_factors "impact" 20 * 1

/-- `ImpactCalculator._calculate_ram_manufacturing`:
`ram_factors.get('impact', 10.0) * getattr(ram_config, 'units', 1)`. -/
def calculate_ram_manufacturing (_ram : RAMConfiguration) (ram_factors : Factors) : Rat :=
  factorsGet ram_factors "impact" 10 * 1

/-- `ImpactCalculator._calculate_disk_manufacturing`:
`disk_factors.get('impact', 15.0) * getattr(disk_config, 'units', 1)`. -/
def calculate_disk_manufacturing (_disk : DiskConfiguration) (disk_factors : Factors) : Rat :=
  factorsGet disk_factors "impact" 15 * 1

/-- The factor dictionary passed for one disk:
`impact_factors.get(disk.type, {})`; a `None` disk type is not a key of
the (string-keyed) factor table, so it yields `{}`. -/
def diskFactorsFor (impact_factors : ImpactFactors) (disk : DiskConfiguration) : Factors :=
  match disk.type with
  | some t => (impact_factors t).getD emptyFactors
  | none => emptyFactors

/-- The criterion-independent manufacturing total accumulated by the
loop body of `ImpactCalculator.calculate_manufacturing_impact`
(`total_value`): CPU contribution gated on `device_config.cpu` and
`'cpu' in impact_factors`, plus per-module RAM and per-disk
contributions. -/
def manufacturingTotal (device_config : DeviceConfiguration)
    (impact_factors : ImpactFactors) : Rat :=
  (match device_config.cpu, impact_factors "cpu" with
   | some cpu, some cpu_factors => calculate_cpu_manufacturing cpu cpu_factors
   | _, _ => 0)
  + (device_config.ram.map
      (fun r => calculate_ram_manufacturing r ((impact_factors "ram").getD emptyFactors))).sum
  + (device_config.disk.map
      (fun d => calculate_disk_manufacturing d (diskFactorsFor impact_factors d))).sum

/-- `ImpactCalculator.calculate_manufacturing_impact`: one `ImpactValue`
per requested criterion, with `min_value = value * Decimal('0.9')` and
`max_value = value * Decimal('1.1')` and `source = 'CALCULATED'`. -/
def calculate_manufacturing_impact (device_config : DeviceConfiguration)
    (criteria : List String) (impact_factors : ImpactFactors) : ImpactMap :=
  fun c =>
    if c ∈ criteria then
      let total := manufacturingTotal device_config impact_factors
      some { value := total
             min_value := some (total * (9 / 10))
             max_value := some (total * (11 / 10))
             unit := unitMap c
             source := "CALCULATED" }
    else none

/-- `ImpactCalculator._estimate_device_power`: CPU TDP (default 100.0)
times the `getattr` unit default 1, plus 5.0 W per RAM module, plus
10.0 W per HDD / 5.0 W per other disk, plus the 50.0 W baseline. -/
def estimate_device_power (device_config : DeviceConfiguration) : Rat :=
  (match device_config.cpu with
   | some cpu => cpu.tdp.getD 100 * 1
   | none => 0)
  + (device_config.ram.map (fun _ => (5 : Rat) * 1)).sum
  + (device_config.disk.map
      (fun d => (if d.type = some "hdd" then (10 : Rat) else 5) * 1)).sum
  + 50

/-- The energy in kWh computed by `ImpactCalculator.calculate_use_impact`:
`(avg_power_watts / 1000) * duration_hours`, multiplied by
`workload.get('time_workload', 50) / 100` when `usage_config.workload`
is truthy (not `None` and non-empty). -/
def useEnergyKwh (device_config : DeviceConfiguration)
    (usage_config : UsageConfiguration) (duration_hours : Rat) : Rat :=
  let e := estimate_device_power device_config / 1000 * duration_hours
  match usage_config.workload with
  | some w => if w.isEmpty then e else e * (dictGet w "time_workload" 50 / 100)
  | none => e

/-- `ImpactCalculator.calculate_use_impact`: per requested criterion,
`value = energy_kwh * electrical_factors.get(criterion, 0.0)` with
`min_value = value * Decimal('0.8')`, `max_value = value * Decimal('1.2')`
and `source = 'CALCULATED'`. -/
def calculate_use_impact (device_config : DeviceConfiguration)
    (usage_config : UsageConfiguration) (criteria : List String)
    (duration_hours : Rat) (electrical_factors : Factors) : ImpactMap :=
  fun c =>
    if c ∈ criteria then
      let v := useEnergyKwh device_config usage_config duration_hours
        * factorsGet electrical_factors c 0
      some { value := v
             min_value := some (v * (4 / 5))
             max_value := some (v * (6 / 5))
             unit := unitMap c
             source := "CALCULATED" }
    else none

/-- `ImpactCalculator.calculate_end_of_life_impact`: per requested
criterion, `value = min_value = max_value = Decimal('0')` with
`source = 'NOT_IMPLEMENTED'`. -/
def calculate_end_of_life_impact (_device_config : DeviceConfiguration)
    (criteria : List String) (_impact_factors : ImpactFactors) : ImpactMap :=
  fun c =>
    if c ∈ criteria then
      some { value := 0
             min_value := some 0
             max_value := some 0
             unit := unitMap c
             source := "NOT_IMPLEMENTED" }
    else none

/-- One step of the accumulation inside the loop of
`ImpactCalculator.aggregate_phase_impacts`: if the phase contains the
criterion, add its value to the running total and overwrite the running
unit with the phase's unit. -/
def phaseStep (acc : Rat × String) (x : Option ImpactValue) : Rat × String :=
  match x with
  | some iv => (acc.1 + iv.value, iv.unit)
  | none => acc

/-- `ImpactCalculator.aggregate_phase_impacts`: the result dictionary is
keyed by the union `set(manufacturing) | set(use) | set(end_of_life)`;
for each such criterion the loop starts from `(Decimal('0'), 'unknown')`
and folds the manufacturing, use and end-of-life entries in that order,
producing `ImpactValue(value=total_value, unit=unit, source='AGGREGATED')`
(the dataclass defaults leave `min_value` and `max_value` unset). -/
def aggregate_phase_impacts (manufacturing use end_of_life : ImpactMap) : ImpactMap :=
  fun c =>
    if (manufacturing c).isSome || (use c).isSome || (end_of_life c).isSome then
      let r := phaseStep (phaseStep (phaseStep (0, "unknown") (manufacturing c))
        (use c)) (end_of_life c)
      some { value := r.1, unit := r.2, source := "AGGREGATED" }
    else none

/-- `PhaseImpact` dataclass (`core/domain/model/impact.py`). -/
structure PhaseImpact where
  manufacturing : ImpactMap
  use : ImpactMap
  end_of_life : ImpactMap

/-- `ImpactResult` dataclass (`core/domain/model/impact.py`), restricted
to the fields the server use case populates deterministically. -/
structure ImpactResult where
  impacts : ImpactMap
  phases : PhaseImpact
  duration_years : Rat

/-- `HOURS_PER_YEAR = 8760.0` (`core/config_constants.py`). -/
def HOURS_PER_YEAR : Rat := 8760

/-- `ComputeServerImpactUseCase._get_impact_factors`: the hard-coded
factor table returned by the Phase-4 stub. -/
def serverImpactFactors : ImpactFactors := fun category =>
  if category = "cpu" then
    some (fun k => if k = "impact" then some 20 else if k = "die_impact" then some 2 else none)
  else if category = "ram" then
    some (fun k => if k = "impact" then some 10 else if k = "die_impact" then some (1 / 2) else none)
  else if category = "ssd" then
    some (fun k => if k = "impact" then some 15 else if k = "die_impact" then some 1 else none)
  else if category = "hdd" then
    some (fun k => if k = "impact" then some 12 else none)
  else none

/-- `ComputeServerImpactUseCase._get_electrical_factors`: the location
argument is ignored and the hard-coded world-average factors
`{'gwp': 0.5, 'pe': 11.0, 'adp': 0.00002}` are returned. -/
def get_electrical_factors (_location : Option String) : Factors :=
  fun c =>
    if c = "gwp" then some (1 / 2)
    else if c = "pe" then some 11
    else if c = "adp" then some (1 / 50000)
    else none

/-- The body of `ComputeServerImpactUseCase.execute` after the two
`None` checks: duration defaults to `HOURS_PER_YEAR`, phase impacts are
computed by the domain service, then aggregated. -/
def executeCore (device_config : DeviceConfiguration)
    (usage_config : UsageConfiguration) (criteria : List String)
    (duration : Option Rat) : ImpactResult :=
  let dur := duration.getD HOURS_PER_YEAR
  let impact_factors := serverImpactFactors
  let electrical_factors := get_electrical_factors usage_config.location
  let m := calculate_manufacturing_impact device_config criteria impact_factors
  let u := calculate_use_impact device_config usage_config criteria dur electrical_factors
  let e := calculate_end_of_life_impact device_config criteria impact_factors
  { impacts := aggregate_phase_impacts m u e
    phases := { manufacturing := m, use := u, end_of_life := e }
    duration_years := dur / HOURS_PER_YEAR }

/-- The typed domain failures the server use case can raise
(`core/domain/exceptions/__init__.py`; `execute` raises only the two
`None`-configuration errors). -/
inductive DomainError where
  | invalidDeviceConfiguration (reason : String)
  | invalidUsageConfiguration (reason : String)
deriving Repr, DecidableEq

/-- `ComputeServerImpactUseCase.execute`, error channel included:
`_validate_device_config` / `_validate_usage_config` raise exactly when
the corresponding argument is `None`; otherwise the computation runs
and a result is returned. -/
def execute (device_config : Option DeviceConfiguration)
    (usage_config : Option UsageConfiguration) (criteria : List String)
    (duration : Option Rat) : Except DomainError ImpactResult :=
  match device_config with
  | none => .error (.invalidDeviceConfiguration "Device configuration is required")
  | some d =>
    match usage_config with
    | none => .error (.invalidUsageConfiguration "Usage configuration is required")
    | some u => .ok (executeCore d u criteria duration)

/-- First-match lookup in an association list (a Python `dict` read). -/
def listLookup {α : Type} (l : List (String × α)) (k : String) : Option α :=
  (l.find? (fun p => p.1 = k)).map (·.2)

/-- The `electricity` section of the factor document read by
`FactorProvider.get_electrical_mix`: per-country mixes plus the
`available_countries` alias map (alias key → country code). -/
structure ElectricityTable where
  entries : List (String × Factors)
  available_countries : List (String × String)

/-- `FactorProvider.get_electrical_mix`: `None` when the factor document
or its `electricity` section is absent; otherwise the direct key is
tried first, then the alias map is scanned for an entry whose value is
the requested code and the matching alias key is looked up (which can
itself miss, yielding `None`). -/
def get_electrical_mix (electricity : Option ElectricityTable)
    (country_code : String) : Option Factors :=
  match electricity with
  | none => none
  | some t =>
    match listLookup t.entries country_code with
    | some mix => some mix
    | none =>
      match t.available_countries.find? (fun p => p.2 = country_code) with
      | some p => listLookup t.entries p.1
      | none => none

/-- An archetype record: attribute name to raw cell value.
Modelled from the spec: `boaviztapi.service.archetype.row2json` is not
under `src/`; per §4.1 a record maps attribute names to bound fields,
and the claims here depend only on presence or absence of a record. -/
def ArchetypeRecord : Type := List (String × String)

/-- A CSV archetype table: one row per archetype id.
Modelled from the spec: `boaviztapi.service.archetype.get_archetype` is
not under `src/`; per §4.1 lookup returns the row whose id matches, and
a missing id yields an absent result, never an error ("parsing is
lenient — absent columns simply leave that bound unset, never raising"). -/
def ArchetypeTable : Type := List (String × ArchetypeRecord)

/-- Modelled from the spec: `boaviztapi.service.archetype.get_archetype`
(not under `src/`) — look up the row keyed by `archetype_id`; `None`
when no row matches (§4.1, §8: a nonexistent id yields an absent
result, never raises). -/
def get_archetype (table : ArchetypeTable) (archetype_id : String) :
    Option ArchetypeRecord :=
  (table.find? (fun row => row.1 = archetype_id)).map (·.2)

/-- The configuration mapping read through `config.get(key, default)`
in `adapters/driven/persistence/archetype_repository.py`. -/
structure RepoConfig where
  default_server : Option String := none
  default_iot_device : Option String := none
  default_laptop : Option String := none
deriving Repr, DecidableEq

/-- `config.get(key, default)`. -/
def configGet (entry : Option String) (dflt : String) : String :=
  entry.getD dflt

/-- `ArchetypeRepository` state: the configuration, the CSV-backed
tables (`none` models a missing CSV file, checked with
`os.path.exists`), and the mutable `_cache` keyed by the string cache
keys the adapter builds.  `archetypes/server.csv` is read without an
existence check. -/
structure ArchetypeRepository where
  config : RepoConfig
  server_table : ArchetypeTable
  component_tables : String → Option ArchetypeTable
  iot_table : Option ArchetypeTable
  terminal_table : Option ArchetypeTable
  cache : List (String × ArchetypeRecord)

/-- The id rewrite at the top of
`ArchetypeRepository.get_server_archetype`: the unqualified id
`"default"` becomes `config.get("default_server", "platform_compute_medium")`. -/
def serverResolvedId (cfg : RepoConfig) (archetype_id : String) : String :=
  if archetype_id = "default" then configGet cfg.default_server "platform_compute_medium"
  else archetype_id

/-- `ArchetypeRepository.get_server_archetype`: rewrite the id, consult
the cache under `"server:{id}"`, otherwise look the id up in
`archetypes/server.csv`; a truthy (non-empty) record is cached and
returned, anything else yields `None`. -/
def get_server_archetype (repo : ArchetypeRepository) (archetype_id : String) :
    Option ArchetypeRecord × ArchetypeRepository :=
  let id := serverResolvedId repo.config archetype_id
  let cache_key := "server:" ++ id
  match listLookup repo.cache cache_key with
  | some rec => (some rec, repo)
  | none =>
    match get_archetype repo.server_table id with
    | some rec =>
      if rec.isEmpty then (none, repo)
      else (some rec, { repo with cache := (cache_key, rec) :: repo.cache })
    | none => (none, repo)

/-- `ArchetypeRepository.get_component_archetype`: consult the cache
under `"component:{component_type}:{archetype_id}"`, then check that
`archetypes/components/{component_type}.csv` exists, then look up the
id; a truthy record is cached and returned, anything else yields `None`. -/
def get_component_archetype (repo : ArchetypeRepository)
    (archetype_id component_type : String) :
    Option ArchetypeRecord × ArchetypeRepository :=
  let cache_key := "component:" ++ component_type ++ ":" ++ archetype_id
  match listLookup repo.cache cache_key with
  | some rec => (some rec, repo)
  | none =>
    match repo.component_tables component_type with
    | none => (none, repo)
    | some table =>
      match get_archetype table archetype_id with
      | some rec =>
        if rec.isEmpty then (none, repo)
        else (some rec, { repo with cache := (cache_key, rec) :: repo.cache })
      | none => (none, repo)

/-- The id rewrite in `ArchetypeRepository.get_iot_device_archetype`:
`"default"` becomes `config.get("default_iot_device", "iot-device-default")`. -/
def iotResolvedId (cfg : RepoConfig) (archetype_id : String) : String :=
  if archetype_id = "default" then configGet cfg.default_iot_device "iot-device-default"
  else archetype_id

/-- `ArchetypeRepository.get_iot_device_archetype`: rewrite the id,
consult the cache under `"iot:{id}"`, check the CSV exists, then look
the id up; a truthy record is cached and returned. -/
def get_iot_device_archetype (repo : ArchetypeRepository) (archetype_id : String) :
    Option ArchetypeRecord × ArchetypeRepository :=
  let id := iotResolvedId repo.config archetype_id
  let cache_key := "iot:" ++ id
  match listLookup repo.cache cache_key with
  | some rec => (some rec, repo)
  | none =>
    match repo.iot_table with
    | none => (none, repo)
    | some table =>
      match get_archetype table id with
      | some rec =>
        if rec.isEmpty then (none, repo)
        else (some rec, { repo with cache := (cache_key, rec) :: repo.cache })
      | none => (none, repo)

/-- The id rewrite in `ArchetypeRepository.get_user_terminal_archetype`:
`"default"` becomes `config.get("default_laptop", "laptop-pro")`. -/
def terminalResolvedId (cfg : RepoConfig) (archetype_id : String) : String :=
  if archetype_id = "default" then configGet cfg.default_laptop "laptop-pro"
  else archetype_id

/-- `ArchetypeRepository.get_user_terminal_archetype`: rewrite the id,
consult the cache under `"terminal:{id}"`, check the CSV exists, then
look the id up; a truthy record is cached and returned. -/
def get_user_terminal_archetype (repo : ArchetypeRepository) (archetype_id : String) :
    Option ArchetypeRecord × ArchetypeRepository :=
  let id := terminalResolvedId repo.config archetype_id
  let cache_key := "terminal:" ++ id
  match listLookup repo.cache cache_key with
  | some rec => (some rec, repo)
  | none =>
    match repo.terminal_table with
    | none => (none, repo)
    | some table =>
      match get_archetype table id with
      | some rec =>
        if rec.isEmpty then (none, repo)
        else (some rec, { repo with cache := (cache_key, rec) :: repo.cache })
      | none => (none, repo)

/-! ## Helper definitions and lemmas shared by the verification theorems -/

/-- The value a phase contributes to the aggregated total for a
criterion: the entry's value when the phase contains the criterion,
`0` otherwise. -/
def contribution (x : Option ImpactValue) : Rat :=
  match x with
  | some iv => iv.value
  | none => 0

/-- The unit the aggregation loop ends up with: the unit of the last
phase, in the order manufacturing → use → end-of-life, that contains
the criterion, and `"unknown"` when none does. -/
def lastPhaseUnit (m u e : ImpactMap) (c : String) : String :=
  match e c with
  | some iv => iv.unit
  | none =>
    match u c with
    | some iv => iv.unit
    | none =>
      match m c with
      | some iv => iv.unit
      | none => "unknown"

/-- Doubling the duration doubles the energy computed by
`calculate_use_impact`, whatever the workload. -/
theorem useEnergyKwh_double (d : DeviceConfiguration) (u : UsageConfiguration)
    (h : Rat) : useEnergyKwh d u (2 * h) = 2 * useEnergyKwh d u h := by
  unfold useEnergyKwh
  cases hw : u.workload with
  | none => ring
  | some w =>
    by_cases hempty : w.isEmpty <;> simp [hempty] <;> ring

/-- Soundness of the repository cache for server lookups: every cached
`"server:{id}"` entry is the table's record for `id` (the adapter only
ever caches values obtained from `get_archetype` on the server table). -/
def serverCacheSound (repo : ArchetypeRepository) : Prop :=
  ∀ id rec, listLookup repo.cache ("server:" ++ id) = some rec →
    get_archetype repo.server_table id = some rec

/-- Soundness of the repository cache for component lookups: every
cached `"component:{type}:{id}"` entry comes from a hit in the existing
component table for that type. -/
def componentCacheSound (repo : ArchetypeRepository) : Prop :=
  ∀ ctype id rec,
    listLookup repo.cache ("component:" ++ ctype ++ ":" ++ id) = some rec →
    ∃ table, repo.component_tables ctype = some table
      ∧ get_archetype table id = some rec

/-- Rewriting `"default"` for server lookups lands on the same resolved
id as passing the configured fallback id directly. -/
theorem serverResolvedId_default (cfg : RepoConfig) :
    serverResolvedId cfg "default"
      = serverResolvedId cfg (configGet cfg.default_server "platform_compute_medium") := by
  unfold serverResolvedId
  by_cases h : configGet cfg.default_server "platform_compute_medium" = "default" <;>
    simp [h]

/-- Rewriting `"default"` for IoT lookups lands on the same resolved id
as passing the configured fallback id directly. -/
theorem iotResolvedId_default (cfg : RepoConfig) :
    iotResolvedId cfg "default"
      = iotResolvedId cfg (configGet cfg.default_iot_device "iot-device-default") := by
  unfold iotResolvedId
  by_cases h : configGet cfg.default_iot_device "iot-device-default" = "default" <;>
    simp [h]

/-- Rewriting `"default"` for user-terminal lookups lands on the same
resolved id as passing the configured fallback id directly. -/
theorem terminalResolvedId_default (cfg : RepoConfig) :
    terminalResolvedId cfg "default"
      = terminalResolvedId cfg (configGet cfg.default_laptop "laptop-pro") := by
  unfold terminalResolvedId
  by_cases h : configGet cfg.default_laptop "laptop-pro" = "default" <;> simp [h]

/-! ## Concrete inputs used by witnesses and counterexamples -/

/-- A manufacturing phase map containing only `gwp`. -/
def mW : ImpactMap :=
  fun c => if c = "gwp" then some { value := 3, unit := "kgCO2eq" } else none

/-- A use phase map containing only `gwp`. -/
def uW : ImpactMap :=
  fun c => if c = "gwp" then some { value := 4, unit := "kgCO2eq" } else none

/-- The empty phase map. -/
def emptyImpactMap : ImpactMap := fun _ => none

/-- A manufacturing phase map whose entry carries uncertainty bounds. -/
def mBounds : ImpactMap :=
  fun c =>
    if c = "gwp" then
      some { value := 1, min_value := some (1 / 2), max_value := some 2, unit := "kgCO2eq" }
    else none

/-- A use phase map whose entry carries uncertainty bounds. -/
def uBounds : ImpactMap :=
  fun c =>
    if c = "gwp" then
      some { value := 2, min_value := some 1, max_value := some 3, unit := "kgCO2eq" }
    else none

/-- An end-of-life phase map whose entry carries uncertainty bounds. -/
def eBounds : ImpactMap :=
  fun c =>
    if c = "gwp" then
      some { value := 3, min_value := some 2, max_value := some 4, unit := "kgCO2eq" }
    else none

/-- A manufacturing map whose `gwp` entry is in `kgCO2eq`. -/
def mMismatch : ImpactMap :=
  fun c => if c = "gwp" then some { value := 2, unit := "kgCO2eq" } else none

/-- A use map whose `gwp` entry is in `MJ`, disagreeing with
`mMismatch`. -/
def uMismatch : ImpactMap :=
  fun c => if c = "gwp" then some { value := 3, unit := "MJ" } else none

/-- A device with a CPU left entirely at its defaults. -/
def cpuOnlyDevice : DeviceConfiguration := { cpu := some {} }

/-- An `electricity` section with no country entries and no aliases. -/
def emptyElectricity : ElectricityTable := { entries := [], available_countries := [] }

/-- A repository over empty tables with an empty cache. -/
def emptyRepo : ArchetypeRepository :=
  { config := {}
    server_table := []
    component_tables := fun _ => none
    iot_table := none
    terminal_table := none
    cache := [] }

/-! ## Claim theorems -/

/-- C1: for all three phase maps, `aggregate_phase_impacts` is keyed by
the union of the criteria present in any phase, and each total's value
is the sum of that criterion's values over the phases containing it,
with source `AGGREGATED`. -/
theorem aggregate_is_union_and_sum (m u e : ImpactMap) (c : String) :
    ((aggregate_phase_impacts m u e c).isSome ↔
      (m c).isSome ∨ (u c).isSome ∨ (e c).isSome)
    ∧ ∀ iv, aggregate_phase_impacts m u e c = some iv →
        iv.value = contribution (m c) + contribution (u c) + contribution (e c)
        ∧ iv.source = "AGGREGATED" := by
  cases hm : m c <;> cases hu : u c <;> cases he : e c <;>
    simp [aggregate_phase_impacts, phaseStep, contribution, hm, hu, he]

/-- Closed witness for C1 at concrete phase maps: the `gwp` total of
`mW` (value 3) and `uW` (value 4) is 7 with source `AGGREGATED`. -/
theorem aggregate_is_union_and_sum_witness :
    ({ value := 7, unit := "kgCO2eq", source := "AGGREGATED" } : ImpactValue).value
      = contribution (mW "gwp") + contribution (uW "gwp") + contribution (emptyImpactMap "gwp")
    ∧ ({ value := 7, unit := "kgCO2eq", source := "AGGREGATED" } : ImpactValue).source
      = "AGGREGATED" :=
  (aggregate_is_union_and_sum mW uW emptyImpactMap "gwp").2
    { value := 7, unit := "kgCO2eq", source := "AGGREGATED" }
    (by norm_num [aggregate_phase_impacts, phaseStep, mW, uW, emptyImpactMap])

/-- C2: the use-phase impact value of every requested criterion at
duration `2 * h` is exactly twice the value at duration `h` (the
embedding computes in exact rational arithmetic, so the source's
floating-point tolerance is equality here). -/
theorem use_impact_linear_in_duration (d : DeviceConfiguration)
    (u : UsageConfiguration) (criteria : List String) (elec : Factors)
    (h : Rat) (c : String) (hpos : 0 < h) (hne : criteria ≠ [])
    (hc : c ∈ criteria) :
    (calculate_use_impact d u criteria (2 * h) elec c).map (fun iv => iv.value)
      = (calculate_use_impact d u criteria h elec c).map (fun iv => 2 * iv.value) := by
  simp [calculate_use_impact, hc, useEnergyKwh_double]
  ring

/-- Closed witness for C2: a bare device at duration `2 * 1` versus `1`
hour, on the world-average factors. -/
theorem use_impact_linear_in_duration_witness :
    (calculate_use_impact {} {} ["gwp"] (2 * 1) (get_electrical_factors none) "gwp").map
        (fun iv => iv.value)
      = (calculate_use_impact {} {} ["gwp"] 1 (get_electrical_factors none) "gwp").map
        (fun iv => 2 * iv.value) :=
  use_impact_linear_in_duration {} {} ["gwp"] (get_electrical_factors none) 1 "gwp"
    (by norm_num) (by decide) (by decide)

/-- C6: for every device, factor table and requested criterion, the
end-of-life impact has value, min and max all zero and source
`NOT_IMPLEMENTED`. -/
theorem end_of_life_all_zero (d : DeviceConfiguration) (criteria : List String)
    (f : ImpactFactors) (c : String) (hc : c ∈ criteria) :
    (calculate_end_of_life_impact d criteria f c).map
        (fun iv => (iv.value, iv.min_value, iv.max_value, iv.source))
      = some (0, some 0, some 0, "NOT_IMPLEMENTED") := by
  simp [calculate_end_of_life_impact, hc]

/-- Closed witness for C6 at a concrete device and criterion. -/
theorem end_of_life_all_zero_witness :
    (calculate_end_of_life_impact cpuOnlyDevice ["gwp"] serverImpactFactors "gwp").map
        (fun iv => (iv.value, iv.min_value, iv.max_value, iv.source))
      = some (0, some 0, some 0, "NOT_IMPLEMENTED") :=
  end_of_life_all_zero cpuOnlyDevice ["gwp"] serverImpactFactors "gwp" (by decide)

/-- C9: two server-impact computations that differ only in the usage
location produce the same manufacturing-phase and end-of-life-phase
impact maps. -/
theorem location_change_preserves_manufacturing_and_eol
    (d : DeviceConfiguration) (u : UsageConfiguration) (loc : Option String)
    (criteria : List String) (duration : Option Rat) :
    (executeCore d { u with location := loc } criteria duration).phases.manufacturing
      = (executeCore d u criteria duration).phases.manufacturing
    ∧ (executeCore d { u with location := loc } criteria duration).phases.end_of_life
      = (executeCore d u criteria duration).phases.end_of_life :=
  ⟨rfl, rfl⟩

/-- C10: every total produced by `aggregate_phase_impacts` has
`min_value = none` and `max_value = none`, whatever bounds the phase
entries carry. -/
theorem aggregate_drops_bounds (m u e : ImpactMap) (c : String)
    (iv : ImpactValue) (h : aggregate_phase_impacts m u e c = some iv) :
    iv.min_value = none ∧ iv.max_value = none := by
  unfold aggregate_phase_impacts at h
  split at h
  · simp only [Option.some.injEq] at h
    subst h
    exact ⟨rfl, rfl⟩
  · exact Option.noConfusion h

/-- Closed witness for C10: all three phases carry bounds, yet the
aggregated `gwp` total carries none. -/
theorem aggregate_drops_bounds_witness :
    ({ value := 6, unit := "kgCO2eq", source := "AGGREGATED" } : ImpactValue).min_value = none
    ∧ ({ value := 6, unit := "kgCO2eq", source := "AGGREGATED" } : ImpactValue).max_value = none :=
  aggregate_drops_bounds mBounds uBounds eBounds "gwp"
    { value := 6, unit := "kgCO2eq", source := "AGGREGATED" }
    (by norm_num [aggregate_phase_impacts, phaseStep, mBounds, uBounds, eBounds])

/-- Modelled from the spec: §4.4 prescribes deriving the manufacturing
uncertainty bounds by "propagating the archetype's `min`/`max` attribute
bounds through the same scaling formula used for the central value".
The calculator's inputs (`DeviceConfiguration`, `ImpactFactors`) carry
no `min`/`max` attribute bounds (the legacy Boattribute model is not
under `src/`), so substituting lower (resp. upper) attribute bounds
into the central formula `manufacturingTotal` changes nothing and both
propagated bounds coincide with the central value. -/
def specPropagatedManufacturingBounds (d : DeviceConfiguration)
    (f : ImpactFactors) : Rat × Rat :=
  (manufacturingTotal d f, manufacturingTotal d f)

/-- C3 counterexample: on a CPU-only device the central manufacturing
value is 20 and the code returns the fixed band `min = 18`, `max = 22`,
while propagating bounds through the central formula (which sees no
attribute bounds) yields `(20, 20)`; `18 ≠ 20`, so the bounds are not
obtained by propagation. -/
theorem manufacturing_bounds_not_propagated_cex :
    (calculate_manufacturing_impact cpuOnlyDevice ["gwp"] serverImpactFactors "gwp").map
        (fun iv => (iv.value, iv.min_value, iv.max_value))
      = some (20, some 18, some 22)
    ∧ specPropagatedManufacturingBounds cpuOnlyDevice serverImpactFactors = (20, 20)
    ∧ (18 : Rat) ≠ 20 := by
  refine ⟨?_, ?_, by norm_num⟩
  · norm_num [calculate_manufacturing_impact, manufacturingTotal, cpuOnlyDevice,
      serverImpactFactors, calculate_cpu_manufacturing, factorsGet]
  · norm_num [specPropagatedManufacturingBounds, manufacturingTotal, cpuOnlyDevice,
      serverImpactFactors, calculate_cpu_manufacturing, factorsGet]

/-- C3 amended: the uncertainty bounds are a fixed percentage band
around the central value — `±10%` for every manufacturing impact and
`±20%` for every use-phase impact — independent of any archetype
bounds. -/
theorem impact_bounds_are_fixed_percentage (d : DeviceConfiguration)
    (criteria : List String) (f : ImpactFactors) (u : UsageConfiguration)
    (dur : Rat) (elec : Factors) (c : String) :
    (∀ iv, calculate_manufacturing_impact d criteria f c = some iv →
      iv.min_value = some (iv.value * (9 / 10))
      ∧ iv.max_value = some (iv.value * (11 / 10)))
    ∧ ∀ iv, calculate_use_impact d u criteria dur elec c = some iv →
      iv.min_value = some (iv.value * (4 / 5))
      ∧ iv.max_value = some (iv.value * (6 / 5)) := by
  constructor
  · intro iv h
    unfold calculate_manufacturing_impact at h
    split at h
    · simp only [Option.some.injEq] at h
      subst h
      exact ⟨rfl, rfl⟩
    · exact Option.noConfusion h
  · intro iv h
    unfold calculate_use_impact at h
    split at h
    · simp only [Option.some.injEq] at h
      subst h
      exact ⟨rfl, rfl⟩
    · exact Option.noConfusion h

/-- The concrete manufacturing `gwp` entry produced for
`cpuOnlyDevice` over `serverImpactFactors`. -/
def cpuOnlyManufEntry : ImpactValue :=
  { value := 20, min_value := some 18, max_value := some 22, unit := "kgCO2eq", source := "CALCULATED" }

/-- Closed witness for the amended C3 at the CPU-only device: the
concrete manufacturing entry `(20, 18, 22)` satisfies the fixed-band
equations. -/
theorem impact_bounds_are_fixed_percentage_witness :
    cpuOnlyManufEntry.min_value = some (cpuOnlyManufEntry.value * (9 / 10))
    ∧ cpuOnlyManufEntry.max_value = some (cpuOnlyManufEntry.value * (11 / 10)) :=
  (impact_bounds_are_fixed_percentage cpuOnlyDevice ["gwp"] serverImpactFactors {} 1
      emptyFactors "gwp").1 cpuOnlyManufEntry
    (by norm_num [calculate_manufacturing_impact, manufacturingTotal, cpuOnlyDevice,
      serverImpactFactors, calculate_cpu_manufacturing, factorsGet, unitMap, cpuOnlyManufEntry])

/-- C4 counterexample: the manufacturing and use phases disagree on the
unit of `gwp` (`kgCO2eq` vs `MJ`), yet aggregation returns a total
(value `5`, unit `MJ`, source `AGGREGATED`) instead of failing: the
mismatch is silently resolved by keeping one of the units, and no
`InconsistentUnits` error exists anywhere in the codebase. -/
theorem unit_mismatch_silently_resolved_cex :
    (mMismatch "gwp").map (fun iv => iv.unit) = some "kgCO2eq"
    ∧ (uMismatch "gwp").map (fun iv => iv.unit) = some "MJ"
    ∧ aggregate_phase_impacts mMismatch uMismatch emptyImpactMap "gwp"
      = some { value := 5, unit := "MJ", source := "AGGREGATED" } := by
  refine ⟨by norm_num [mMismatch], by norm_num [uMismatch], ?_⟩
  norm_num [aggregate_phase_impacts, phaseStep, mMismatch, uMismatch, emptyImpactMap]

/-- C4 amended: aggregation never fails on a unit mismatch; the total's
unit is simply the unit of the last phase — in the order manufacturing,
use, end-of-life — that contains the criterion (`"unknown"` when the
criterion is absent everywhere). -/
theorem aggregate_unit_is_last_phase (m u e : ImpactMap) (c : String)
    (iv : ImpactValue) (h : aggregate_phase_impacts m u e c = some iv) :
    iv.unit = lastPhaseUnit m u e c := by
  cases hm : m c <;> cases hu : u c <;> cases he : e c <;>
      simp [aggregate_phase_impacts, phaseStep, lastPhaseUnit, hm, hu, he] at h ⊢ <;>
    simp [← h]

/-- Closed witness for the amended C4 at the mismatched maps: the
total's unit is the use phase's `MJ`, the last phase present. -/
theorem aggregate_unit_is_last_phase_witness :
    ({ value := 5, unit := "MJ", source := "AGGREGATED" } : ImpactValue).unit
      = lastPhaseUnit mMismatch uMismatch emptyImpactMap "gwp" :=
  aggregate_unit_is_last_phase mMismatch uMismatch emptyImpactMap "gwp"
    { value := 5, unit := "MJ", source := "AGGREGATED" }
    (by norm_num [aggregate_phase_impacts, phaseStep, mMismatch, uMismatch, emptyImpactMap])

/-- C5 counterexample: with an electricity table containing no entry
for `"XX"` (`get_electrical_mix` yields `None`), a compute request
located at `"XX"` still succeeds: `execute` returns an `ok` result
whose use-phase `gwp` value is the hard-coded world-average one
(50 W baseline × 8760 h × 0.5 kgCO2eq/kWh = 219). -/
theorem unknown_location_still_returns_result_cex :
    get_electrical_mix (some emptyElectricity) "XX" = none
    ∧ execute (some {}) (some { location := some "XX" }) ["gwp"] none
      = Except.ok (executeCore {} { location := some "XX" } ["gwp"] none)
    ∧ ((executeCore {} { location := some "XX" } ["gwp"] none).phases.use "gwp").map
        (fun iv => iv.value) = some 219 := by
  refine ⟨rfl, rfl, ?_⟩
  norm_num [executeCore, calculate_use_impact, useEnergyKwh, estimate_device_power,
    factorsGet, get_electrical_factors, HOURS_PER_YEAR]

/-- C5 amended: the use case never fails for an unresolvable location —
for any non-`None` configurations `execute` returns `ok` (its only
typed failures are the two `None`-configuration errors), because
`_get_electrical_factors` ignores the location and substitutes fixed
world-average factors; at the adapter level `get_electrical_mix`
returns `None` (not an error) when the location matches neither a
direct entry nor an alias. -/
theorem execute_never_fails_on_location (d : DeviceConfiguration)
    (u : UsageConfiguration) (criteria : List String) (duration : Option Rat)
    (t : ElectricityTable) (code : String)
    (hdirect : listLookup t.entries code = none)
    (halias : t.available_countries.find? (fun p => p.2 = code) = none) :
    execute (some d) (some u) criteria duration
      = Except.ok (executeCore d u criteria duration)
    ∧ get_electrical_mix (some t) code = none := by
  refine ⟨rfl, ?_⟩
  simp [get_electrical_mix, hdirect, halias]

/-- Closed witness for the amended C5 at a bare device located at
`"XX"` over the empty electricity table. -/
theorem execute_never_fails_on_location_witness :
    execute (some {}) (some { location := some "XX" }) ["gwp"] none
      = Except.ok (executeCore {} { location := some "XX" } ["gwp"] none)
    ∧ get_electrical_mix (some emptyElectricity) "XX" = none :=
  execute_never_fails_on_location {} { location := some "XX" } ["gwp"] none
    emptyElectricity "XX" rfl rfl

/-- C7: a lookup whose id matches no row — after the `"default"`
rewrite for servers, and whether the component CSV is missing or merely
lacks the row — returns `None` from both `get_server_archetype` and
`get_component_archetype`; there is no error channel. -/
theorem missing_archetype_returns_none (repo : ArchetypeRepository)
    (id ctype : String)
    (hs : serverCacheSound repo) (hc : componentCacheSound repo)
    (h1 : get_archetype repo.server_table (serverResolvedId repo.config id) = none)
    (h2 : ∀ table, repo.component_tables ctype = some table →
      get_archetype table id = none) :
    (get_server_archetype repo id).1 = none
    ∧ (get_component_archetype repo id ctype).1 = none := by
  constructor
  · unfold get_server_archetype
    cases hcache : listLookup repo.cache ("server:" ++ serverResolvedId repo.config id) with
    | some rec => exact absurd (hs _ _ hcache) (by simp [h1])
    | none => simp [hcache, h1]
  · unfold get_component_archetype
    cases hcache : listLookup repo.cache ("component:" ++ ctype ++ ":" ++ id) with
    | some rec =>
      obtain ⟨table, htab, hrec⟩ := hc _ _ _ hcache
      exact absurd hrec (by simp [h2 table htab])
    | none =>
      cases htab : repo.component_tables ctype with
      | none => simp [hcache, htab]
      | some table => simp [hcache, htab, h2 table htab]

/-- Closed witness for C7: the id `"nonexistent_id"` on a repository
with empty tables returns `None` from both lookups. -/
theorem missing_archetype_returns_none_witness :
    (get_server_archetype emptyRepo "nonexistent_id").1 = none
    ∧ (get_component_archetype emptyRepo "nonexistent_id" "cpu").1 = none :=
  missing_archetype_returns_none emptyRepo "nonexistent_id" "cpu"
    (fun id rec h => by simp [emptyRepo, listLookup] at h)
    (fun ctype id rec h => by simp [emptyRepo, listLookup] at h)
    (by simp [emptyRepo, get_archetype])
    (fun table ht => by simp [emptyRepo] at ht)

/-- C8: looking up the unqualified id `"default"` gives exactly the
same result (returned record and cache effect) as looking up the
configured per-category fallback id directly, for the server, IoT and
user-terminal stores. -/
theorem default_id_rewritten_to_fallback (repo : ArchetypeRepository) :
    get_server_archetype repo "default"
      = get_server_archetype repo (configGet repo.config.default_server "platform_compute_medium")
    ∧ get_iot_device_archetype repo "default"
      = get_iot_device_archetype repo (configGet repo.config.default_iot_device "iot-device-default")
    ∧ get_user_terminal_archetype repo "default"
      = get_user_terminal_archetype repo (configGet repo.config.default_laptop "laptop-pro") := by
  refine ⟨?_, ?_, ?_⟩
  · unfold get_server_archetype
    rw [serverResolvedId_default]
  · unfold get_iot_device_archetype
    rw [iotResolvedId_default]
  · unfold get_user_terminal_archetype
    rw [terminalResolvedId_default]

end Boavizta
